import Mathlib

/-!
Verification of the pyAS4 `Header` class (src/pyAS4/header.py): an ebXML/AS4
"Messaging" header builder over an lxml element tree.  We embed the element
tree as an inductive type, translate the construction (`__init__` /
`__toxml`), the payload append loop (`payload_append`) and the serializer
(`xml` property), and prove the specified properties.
-/

/-- An XML element as built by lxml: a (namespace-qualified) tag, an ordered
attribute list, optional text, and an ordered list of child elements. -/
inductive Elem : Type where
  | mk : String → List (String × String) → Option String → List Elem → Elem

def Elem.tag : Elem → String
  | .mk t _ _ _ => t

def Elem.attrib : Elem → List (String × String)
  | .mk _ a _ _ => a

def Elem.text : Elem → Option String
  | .mk _ _ x _ => x

def Elem.children : Elem → List Elem
  | .mk _ _ _ c => c

/-- The module-level `_NS` prefix map of header.py. -/
def NS : List (String × String) :=
  [("query", "urn:oasis:names:tc:ebxml-regrep:xsd:query:4.0"),
   ("rs", "urn:oasis:names:tc:ebxml-regrep:xsd:rs:4.0"),
   ("rim", "urn:oasis:names:tc:ebxml-regrep:xsd:rim:4.0"),
   ("xsi", "http://www.w3.org/2001/XMLSchema-instance"),
   ("sdg", "http://data.europa.eu/sdg#"),
   ("s12", "http://www.w3.org/2003/05/soap-envelope"),
   ("eu", "http://eu.domibus.wsplugin/"),
   ("eb3", "http://docs.oasis-open.org/ebxml-msg/ebms/v3.0/ns/core/200704/")]

/-- `_nsmap(ns, tag)` of header.py: Clark notation `\x7buri\x7dtag`. -/
def nsmap (ns tag : String) : String :=
  "\x7b" ++ ((NS.lookup ns).getD "") ++ "\x7d" ++ tag

/-- Default for the `service` parameter of `Header.__init__`. -/
def defaultService : String :=
  "http://docs.oasis-open.org/ebxml-msg/as4/200902/service"

/-- Default for the `service_type` parameter of `Header.__init__`. -/
def defaultServiceType : String :=
  "urn:oasis:names:tc:ebcore:ebrs:ebms:binding:1.0"

/-- Default for the `action` parameter of `Header.__init__`. -/
def defaultAction : String :=
  "http://docs.oasis-open.org/ebxml-msg/as4/200902/action"

/-- Default for the `role` parameter of `Header.__init__`. -/
def defaultRole : String :=
  "http://sdg.europa.eu/edelivery/gateway"

/-- The `ValueError("Parameters must not be None")` raised by `Header.__init__`
(the spec names it `ConstructionError`). -/
structure ConstructionError : Type where
  msg : String
deriving DecidableEq

/-- The `KeyError` raised by a payload dict lookup in `payload_append`
(the spec names it `MissingFieldError`); carries the missing key. -/
structure MissingFieldError : Type where
  key : String
deriving DecidableEq

/-- The tree built by `Header.__toxml`: the whole `Messaging` element after
construction (UserMessage with PartyInfo, CollaborationInfo,
MessageProperties and an empty PayloadInfo), translated statement by
statement from the source.  `service_type` is not a parameter because
`__toxml` never reads `self.service_type`: the `type` attribute of `Service`
is the hard-coded string literal from the source. -/
def toxmlRoot (c1_party_id c1_party_id_type c2_party_id c2_party_id_type
    c3_party_id c3_party_id_type c4_party_id c4_party_id_type
    service action conversationid role : String) : Elem :=
  Elem.mk (nsmap "eb3" "Messaging") [] none
    [Elem.mk (nsmap "eb3" "UserMessage") [] none
      [Elem.mk (nsmap "eb3" "PartyInfo") [] none
        [Elem.mk (nsmap "eb3" "From") [] none
          [Elem.mk (nsmap "eb3" "PartyId") [("type", c2_party_id_type)]
            (some c2_party_id) [],
           Elem.mk (nsmap "eb3" "Role") [] (some role) []],
         Elem.mk (nsmap "eb3" "To") [] none
          [Elem.mk (nsmap "eb3" "PartyId") [("type", c3_party_id_type)]
            (some c3_party_id) [],
           Elem.mk (nsmap "eb3" "Role") [] (some role) []]],
       Elem.mk (nsmap "eb3" "CollaborationInfo") [] none
        [Elem.mk (nsmap "eb3" "Service")
          [("type", "urn:oasis:names:tc:ebcore:ebrs:ebms:binding:1.0")]
          (some service) [],
         Elem.mk (nsmap "eb3" "Action") [] (some action) [],
         Elem.mk (nsmap "eb3" "ConversationId") [] (some conversationid) []],
       Elem.mk (nsmap "eb3" "MessageProperties") [] none
        [Elem.mk (nsmap "eb3" "Property")
          [("name", "originalSender"), ("type", c1_party_id_type)]
          (some c1_party_id) [],
         Elem.mk (nsmap "eb3" "Property")
          [("name", "finalRecipient"), ("type", c4_party_id_type)]
          (some c4_party_id) []],
       Elem.mk (nsmap "eb3" "PayloadInfo") [] none []]]

/-- The state of a constructed `Header` object: the element tree rooted at
`Messaging` (`self._xml`, into which `self.pay_load_info` points as its
UserMessage's fourth child) together with the stored attributes. -/
structure Header : Type where
  root : Elem
  c1_party_id : String
  c1_party_id_type : String
  c2_party_id : String
  c2_party_id_type : String
  c3_party_id : String
  c3_party_id_type : String
  c4_party_id : String
  c4_party_id_type : String
  service : String
  service_type : String
  action : String
  conversationid : String
  role : String

/-- `Header.__init__`.  The four party ids are `Option String` because the
source checks them against `None`; other parameters are typed `str`.
`conversationid = none` means the argument was not supplied, in which case
the source uses the default `str(uuid.uuid4())` — an expression Python
evaluates ONCE, when the `def` statement runs, so it is modelled as the
parameter `defaultConversationId` shared by every construction in the
process. -/
def mkHeader (defaultConversationId : String)
    (c1_party_id : Option String) (c1_party_id_type : String)
    (c2_party_id : Option String) (c2_party_id_type : String)
    (c3_party_id : Option String) (c3_party_id_type : String)
    (c4_party_id : Option String) (c4_party_id_type : String)
    (conversationid : Option String)
    (service service_type action role : String) :
    Except ConstructionError Header :=
  match c1_party_id, c2_party_id, c3_party_id, c4_party_id with
  | some c1, some c2, some c3, some c4 =>
      let conv := conversationid.getD defaultConversationId
      Except.ok (Header.mk
        (toxmlRoot c1 c1_party_id_type c2 c2_party_id_type
          c3 c3_party_id_type c4 c4_party_id_type service action conv role)
        c1 c1_party_id_type c2 c2_party_id_type c3 c3_party_id_type
        c4 c4_party_id_type service service_type action conv role)
  | _, _, _, _ => Except.error (ConstructionError.mk "Parameters must not be None")

/-- A payload descriptor dict as consumed by `payload_append`: each field is
`none` when the key is absent from the dict. -/
structure Payload : Type where
  href : Option String
  mimetype : Option String
  CompressionType : Option String

/-- Python truthiness of `payload.get('CompressionType', None)`: an absent
key gives falsy `None`, a present key is truthy unless its string is empty. -/
def truthy : Option String → Bool
  | none => false
  | some s => s != ""

/-- One iteration of the `payload_append` loop body, following the source's
evaluation order: `payload['href']` is read while building the attrib dict of
`PartInfo` (before any element is attached); then `PartInfo` and
`PartProperties` are attached; then `payload['mimetype']` is read as the
right-hand side of the `.text` assignment BEFORE the MimeType `Property`
element is created.  The result is the element this iteration left attached
under `PayloadInfo` (if any) and the error it raised (if any). -/
def appendOnePayload (p : Payload) : Option Elem × Option MissingFieldError :=
  match p.href with
  | none => (none, some (MissingFieldError.mk "href"))
  | some h =>
    match p.mimetype with
    | none =>
        (some (Elem.mk (nsmap "eb3" "PartInfo") [("href", h)] none
          [Elem.mk (nsmap "eb3" "PartProperties") [] none []]),
         some (MissingFieldError.mk "mimetype"))
    | some m =>
        let mimeProp := Elem.mk (nsmap "eb3" "Property")
          [("name", "MimeType")] (some m) []
        let props :=
          if truthy p.CompressionType then
            [mimeProp,
             Elem.mk (nsmap "eb3" "Property") [("name", "CompressionType")]
               (some (p.CompressionType.getD "")) []]
          else [mimeProp]
        (some (Elem.mk (nsmap "eb3" "PartInfo") [("href", h)] none
          [Elem.mk (nsmap "eb3" "PartProperties") [] none props]), none)

/-- The `for payload in payloads` loop of `payload_append`: elements attached
under `PayloadInfo` accumulate left to right; an exception stops the loop but
the elements already attached (including a partial one from the failing
iteration) stay in the tree. -/
def payloadLoop (acc : List Elem) : List Payload → List Elem × Option MissingFieldError
  | [] => (acc, none)
  | p :: rest =>
    match appendOnePayload p with
    | (some e, none) => payloadLoop (acc ++ [e]) rest
    | (some e, some err) => (acc ++ [e], some err)
    | (none, some err) => (acc, some err)
    | (none, none) => (acc, none)

/-- Replace the element at index `i` of a child list by `f` of it. -/
def modifyAt (f : Elem → Elem) : Nat → List Elem → List Elem
  | _, [] => []
  | 0, c :: cs => f c :: cs
  | n + 1, c :: cs => c :: modifyAt f n cs

def Elem.withChildren : Elem → List Elem → Elem
  | .mk t a x _, cs => .mk t a x cs

/-- Apply `f` to the `PayloadInfo` node of a constructed tree: the node
`self.pay_load_info` references, i.e. the fourth child (`PayloadInfo`) of the
first child (`UserMessage`) of the `Messaging` root. -/
def modifyPayloadInfo (r : Elem) (f : Elem → Elem) : Elem :=
  r.withChildren (modifyAt (fun um =>
    um.withChildren (modifyAt f 3 um.children)) 0 r.children)

def Header.withRoot (h : Header) (r : Elem) : Header :=
  Header.mk r h.c1_party_id h.c1_party_id_type h.c2_party_id h.c2_party_id_type
    h.c3_party_id h.c3_party_id_type h.c4_party_id h.c4_party_id_type
    h.service h.service_type h.action h.conversationid h.role

/-- `Header.payload_append(payloads)`: runs the loop against the current
children of `PayloadInfo`; returns the post-call state together with the
exception the loop raised, if any (in the source the mutation happens through
the `self.pay_load_info` reference and the exception propagates). -/
def Header.payload_append (h : Header) (payloads : List Payload) :
    Header × Option MissingFieldError :=
  let res := payloadLoop [] payloads
  (h.withRoot (modifyPayloadInfo h.root
    (fun pli => pli.withChildren (pli.children ++ res.1))), res.2)

/-- `Header.element`: the root element. -/
def Header.element (h : Header) : Elem := h.root

/-- Namespace abbreviation used when displaying a tag: the prefix registered
in `NS` for a URI. -/
def nsAbbrOf (uri : String) : String :=
  ((NS.find? (fun p => p.2 == uri)).map (fun p => p.1)).getD ""

/-- Display a Clark-notation tag `\x7buri\x7dlocal` as `prefix:local`. -/
def displayTag (t : String) : String :=
  match t.splitOn "\x7d" with
  | [a, b] => nsAbbrOf (a.drop 1) ++ ":" ++ b
  | _ => t

def attrsString (attrs : List (String × String)) : String :=
  attrs.foldl (fun acc kv => acc ++ " " ++ kv.1 ++ "=\"" ++ kv.2 ++ "\"") ""

def indentStr (n : Nat) : String := String.join (List.replicate n "  ")

/-- `etree.tostring(element, pretty_print=True)`: a deterministic indented
rendering of the tree (one element per line, children indented). -/
def serializeElem (d : Nat) : Elem → String
  | .mk t a x cs =>
    let inner := String.join (cs.attach.map (fun c => serializeElem (d + 1) c.1))
    if cs.isEmpty then
      indentStr d ++ "<" ++ displayTag t ++ attrsString a ++ ">" ++
        (x.getD "") ++ "</" ++ displayTag t ++ ">\n"
    else
      indentStr d ++ "<" ++ displayTag t ++ attrsString a ++ ">\n" ++
        inner ++ indentStr d ++ "</" ++ displayTag t ++ ">\n"
termination_by e => sizeOf e
decreasing_by
  have hm := List.sizeOf_lt_of_mem c.2
  simp only [Elem.mk.sizeOf_spec]
  omega

/-- The `Header.xml` property: serialization of the root element. -/
def Header.xml (h : Header) : String := serializeElem 0 h.element

/-! ## Definitions taken from the specification's wording, for refinement -/

/-- The header tree exactly as the spec enumerates it: Messaging → UserMessage
→ PartyInfo\x7bFrom\x7bPartyId,Role\x7d, To\x7bPartyId,Role\x7d\x7d →
CollaborationInfo\x7bService,Action,ConversationId\x7d → MessageProperties
\x7bProperty(originalSender), Property(finalRecipient)\x7d → PayloadInfo
(empty), with From/PartyId carrying c2's id and id-type, To/PartyId carrying
c3's, both Role elements carrying the role string, and the two Property
elements carrying c1's and c4's data. -/
def specHeaderShape (c1 c1t c2 c2t c3 c3t c4 c4t svc act conv rl : String) : Elem :=
  Elem.mk (nsmap "eb3" "Messaging") [] none
    [Elem.mk (nsmap "eb3" "UserMessage") [] none
      [Elem.mk (nsmap "eb3" "PartyInfo") [] none
        [Elem.mk (nsmap "eb3" "From") [] none
          [Elem.mk (nsmap "eb3" "PartyId") [("type", c2t)] (some c2) [],
           Elem.mk (nsmap "eb3" "Role") [] (some rl) []],
         Elem.mk (nsmap "eb3" "To") [] none
          [Elem.mk (nsmap "eb3" "PartyId") [("type", c3t)] (some c3) [],
           Elem.mk (nsmap "eb3" "Role") [] (some rl) []]],
       Elem.mk (nsmap "eb3" "CollaborationInfo") [] none
        [Elem.mk (nsmap "eb3" "Service")
          [("type", "urn:oasis:names:tc:ebcore:ebrs:ebms:binding:1.0")]
          (some svc) [],
         Elem.mk (nsmap "eb3" "Action") [] (some act) [],
         Elem.mk (nsmap "eb3" "ConversationId") [] (some conv) []],
       Elem.mk (nsmap "eb3" "MessageProperties") [] none
        [Elem.mk (nsmap "eb3" "Property")
          [("name", "originalSender"), ("type", c1t)] (some c1) [],
         Elem.mk (nsmap "eb3" "Property")
          [("name", "finalRecipient"), ("type", c4t)] (some c4) []],
       Elem.mk (nsmap "eb3" "PayloadInfo") [] none []]]

/-- The `PartInfo` element the spec describes for one payload: `href`
attribute, one `PartProperties` child holding a MimeType `Property` and,
exactly when `CompressionType` is present and truthy, a CompressionType
`Property`. -/
def specPartInfo (p : Payload) : Elem :=
  Elem.mk (nsmap "eb3" "PartInfo") [("href", p.href.getD "")] none
    [Elem.mk (nsmap "eb3" "PartProperties") [] none
      ([Elem.mk (nsmap "eb3" "Property") [("name", "MimeType")]
          (some (p.mimetype.getD "")) []] ++
       (if truthy p.CompressionType then
          [Elem.mk (nsmap "eb3" "Property") [("name", "CompressionType")]
            (some (p.CompressionType.getD "")) []]
        else []))]

/-- The partial `PartInfo` that a missing-`mimetype` iteration leaves behind:
the `PartInfo` and its empty `PartProperties` are attached before the
`payload['mimetype']` lookup raises. -/
def partialPartInfo (p : Payload) : Elem :=
  Elem.mk (nsmap "eb3" "PartInfo") [("href", p.href.getD "")] none
    [Elem.mk (nsmap "eb3" "PartProperties") [] none []]

/-! ## Accessors into a constructed tree -/

def userMessageOf (r : Elem) : Option Elem := r.children[0]?

def partyInfoOf (r : Elem) : Option Elem :=
  (userMessageOf r).bind (fun um => um.children[0]?)

def collaborationInfoOf (r : Elem) : Option Elem :=
  (userMessageOf r).bind (fun um => um.children[1]?)

def messagePropertiesOf (r : Elem) : Option Elem :=
  (userMessageOf r).bind (fun um => um.children[2]?)

def payloadInfoOf (r : Elem) : Option Elem :=
  (userMessageOf r).bind (fun um => um.children[3]?)

def payloadChildren (r : Elem) : List Elem :=
  ((payloadInfoOf r).map Elem.children).getD []

/-- The `type` attribute of the `Service` element (first child of
`CollaborationInfo`). -/
def serviceTypeAttr (r : Elem) : Option String :=
  ((collaborationInfoOf r).bind (fun ci => ci.children[0]?)).bind
    (fun s => s.attrib.lookup "type")

def isOkB {ε α : Type} : Except ε α → Bool
  | .ok _ => true
  | .error _ => false

/-! ## Concrete sample values for witnesses -/

def emptyElem : Elem := Elem.mk "" [] none []

def dummyHeader : Header :=
  Header.mk emptyElem "" "" "" "" "" "" "" "" "" "" "" "" ""

def sampleHeader : Header :=
  match mkHeader "conv-default" (some "id1") "type1" (some "id2") "type2"
      (some "id3") "type3" (some "id4") "type4" none
      defaultService defaultServiceType defaultAction defaultRole with
  | .ok h => h
  | .error _ => dummyHeader

def samplePayload1 : Payload :=
  Payload.mk (some "cid:1") (some "application/pdf") none

def samplePayload2 : Payload :=
  Payload.mk (some "cid:2") (some "text/xml") (some "gzip")

def badMimePayload : Payload := Payload.mk (some "cid:3") none none

def badHrefPayload : Payload := Payload.mk none (some "text/xml") none

/-! ## Helper lemmas -/

lemma appendOnePayload_valid (p : Payload) (h1 : p.href ≠ none)
    (h2 : p.mimetype ≠ none) :
    appendOnePayload p = (some (specPartInfo p), none) := by
  rcases p with ⟨hr, mt, ct⟩
  cases hr with
  | none => simp at h1
  | some hv =>
    cases mt with
    | none => simp at h2
    | some mv =>
      simp only [appendOnePayload, specPartInfo]
      cases hc : truthy ct <;> simp [hc]

lemma appendOnePayload_missing_mimetype (p : Payload) (h1 : p.href ≠ none)
    (h2 : p.mimetype = none) :
    appendOnePayload p = (some (partialPartInfo p), some (MissingFieldError.mk "mimetype")) := by
  rcases p with ⟨hr, mt, ct⟩
  cases hr with
  | none => simp at h1
  | some hv => cases mt with
    | none => simp [appendOnePayload, partialPartInfo]
    | some mv => simp at h2

lemma appendOnePayload_missing_href (p : Payload) (h1 : p.href = none) :
    appendOnePayload p = (none, some (MissingFieldError.mk "href")) := by
  rcases p with ⟨hr, mt, ct⟩
  cases hr with
  | none => simp [appendOnePayload]
  | some hv => simp at h1

lemma payloadLoop_valid_prefix (good qs : List Payload) (acc : List Elem)
    (hv : ∀ p ∈ good, p.href ≠ none ∧ p.mimetype ≠ none) :
    payloadLoop acc (good ++ qs) = payloadLoop (acc ++ good.map specPartInfo) qs := by
  induction good generalizing acc with
  | nil => simp
  | cons p good ih =>
    have hp := hv p (by simp)
    have hrest : ∀ q ∈ good, q.href ≠ none ∧ q.mimetype ≠ none := by
      intro q hq; exact hv q (by simp [hq])
    simp only [List.cons_append, payloadLoop, appendOnePayload_valid p hp.1 hp.2]
    rw [show good.append qs = good ++ qs from rfl, ih _ hrest]
    simp

lemma payloadLoop_all_valid (ps : List Payload) (acc : List Elem)
    (hv : ∀ p ∈ ps, p.href ≠ none ∧ p.mimetype ≠ none) :
    payloadLoop acc ps = (acc ++ ps.map specPartInfo, none) := by
  have := payloadLoop_valid_prefix ps [] acc hv
  simpa [payloadLoop] using this

lemma modifyAt_getElem_eq (f : Elem → Elem) (i : Nat) (l : List Elem) :
    (modifyAt f i l)[i]? = l[i]?.map f := by
  induction l generalizing i with
  | nil => simp [modifyAt]
  | cons c cs ih =>
    cases i with
    | zero => simp [modifyAt]
    | succ n => simpa [modifyAt] using ih n

lemma modifyAt_getElem_ne (f : Elem → Elem) (i j : Nat) (l : List Elem)
    (h : j ≠ i) : (modifyAt f i l)[j]? = l[j]? := by
  induction l generalizing i j with
  | nil => simp [modifyAt]
  | cons c cs ih =>
    cases i with
    | zero =>
      cases j with
      | zero => exact absurd rfl h
      | succ m => simp [modifyAt]
    | succ n =>
      cases j with
      | zero => simp [modifyAt]
      | succ m =>
        simpa [modifyAt] using ih n m (fun hh => h (by simp [hh]))

lemma children_withChildren (e : Elem) (cs : List Elem) :
    (e.withChildren cs).children = cs := by
  cases e; rfl

lemma tag_withChildren (e : Elem) (cs : List Elem) :
    (e.withChildren cs).tag = e.tag := by
  cases e; rfl

lemma attrib_withChildren (e : Elem) (cs : List Elem) :
    (e.withChildren cs).attrib = e.attrib := by
  cases e; rfl

lemma text_withChildren (e : Elem) (cs : List Elem) :
    (e.withChildren cs).text = e.text := by
  cases e; rfl

lemma userMessageOf_modify (r : Elem) (f : Elem → Elem) :
    userMessageOf (modifyPayloadInfo r f) =
      (userMessageOf r).map (fun um => um.withChildren (modifyAt f 3 um.children)) := by
  simp [userMessageOf, modifyPayloadInfo, children_withChildren, modifyAt_getElem_eq]

lemma payloadInfoOf_modify (r : Elem) (f : Elem → Elem) :
    payloadInfoOf (modifyPayloadInfo r f) = (payloadInfoOf r).map f := by
  simp only [payloadInfoOf, userMessageOf_modify]
  cases userMessageOf r with
  | none => rfl
  | some um => simp [children_withChildren, modifyAt_getElem_eq]

lemma partyInfoOf_modify (r : Elem) (f : Elem → Elem) :
    partyInfoOf (modifyPayloadInfo r f) = partyInfoOf r := by
  simp only [partyInfoOf, userMessageOf_modify]
  cases userMessageOf r with
  | none => rfl
  | some um =>
    simpa [children_withChildren] using modifyAt_getElem_ne f 3 0 um.children (by decide)

lemma collaborationInfoOf_modify (r : Elem) (f : Elem → Elem) :
    collaborationInfoOf (modifyPayloadInfo r f) = collaborationInfoOf r := by
  simp only [collaborationInfoOf, userMessageOf_modify]
  cases userMessageOf r with
  | none => rfl
  | some um =>
    simpa [children_withChildren] using modifyAt_getElem_ne f 3 1 um.children (by decide)

lemma messagePropertiesOf_modify (r : Elem) (f : Elem → Elem) :
    messagePropertiesOf (modifyPayloadInfo r f) = messagePropertiesOf r := by
  simp only [messagePropertiesOf, userMessageOf_modify]
  cases userMessageOf r with
  | none => rfl
  | some um =>
    simpa [children_withChildren] using modifyAt_getElem_ne f 3 2 um.children (by decide)

/-! ## Claim theorems -/

/-- C1: every successful construction builds exactly the fixed spec shape:
Messaging → UserMessage → PartyInfo (From with c2's PartyId/type and Role,
To with c3's PartyId/type and Role) → CollaborationInfo (Service, Action,
ConversationId) → MessageProperties (originalSender Property from c1,
finalRecipient Property from c4) → empty PayloadInfo, in document order. -/
theorem mkHeader_builds_spec_shape
    (dflt c1 c1t c2 c2t c3 c3t c4 c4t : String) (conv : Option String)
    (svc svct act rl : String) :
    ∃ h : Header,
      mkHeader dflt (some c1) c1t (some c2) c2t (some c3) c3t (some c4) c4t
        conv svc svct act rl = Except.ok h ∧
      h.root = specHeaderShape c1 c1t c2 c2t c3 c3t c4 c4t svc act
        (conv.getD dflt) rl :=
  ⟨_, rfl, rfl⟩

/-- C3: construction fails (with the `ConstructionError`) exactly when one of
the four mandatory party ids is null; when all four are non-null it succeeds
whatever the id-type companions and the optional strings are. -/
theorem mkHeader_error_iff_missing_id
    (dflt : String) (c1 c2 c3 c4 : Option String)
    (c1t c2t c3t c4t : String) (conv : Option String)
    (svc svct act rl : String) :
    ((∃ h, mkHeader dflt c1 c1t c2 c2t c3 c3t c4 c4t conv svc svct act rl =
        Except.ok h) ↔ (c1 ≠ none ∧ c2 ≠ none ∧ c3 ≠ none ∧ c4 ≠ none)) ∧
    ((mkHeader dflt c1 c1t c2 c2t c3 c3t c4 c4t conv svc svct act rl =
        Except.error (ConstructionError.mk "Parameters must not be None")) ↔
      (c1 = none ∨ c2 = none ∨ c3 = none ∨ c4 = none)) := by
  cases c1 <;> cases c2 <;> cases c3 <;> cases c4 <;>
    simp [mkHeader]

/-- C5: the default `conversationid` is the single value computed when the
`def` statement ran, so two separately constructed instances that omit the
argument share one and the same conversation id — the code does NOT generate
a fresh identifier per construction as the claim requires. -/
theorem conversationid_default_shared
    (dflt : String)
    (a1 a1t a2 a2t a3 a3t a4 a4t svc1 svct1 act1 rl1 : String)
    (b1 b1t b2 b2t b3 b3t b4 b4t svc2 svct2 act2 rl2 : String) :
    ∃ h1 h2 : Header,
      mkHeader dflt (some a1) a1t (some a2) a2t (some a3) a3t (some a4) a4t
        none svc1 svct1 act1 rl1 = Except.ok h1 ∧
      mkHeader dflt (some b1) b1t (some b2) b2t (some b3) b3t (some b4) b4t
        none svc2 svct2 act2 rl2 = Except.ok h2 ∧
      h1.conversationid = h2.conversationid ∧
      h1.conversationid = dflt :=
  ⟨_, _, rfl, rfl, rfl, rfl⟩

/-- C6: the `Service` element's `type` attribute is the hard-coded binding
string for every input, and the `service_type` argument has no influence on
the constructed tree. -/
theorem service_type_never_used
    (dflt c1 c1t c2 c2t c3 c3t c4 c4t : String) (conv : Option String)
    (svc st st' act rl : String) :
    ∃ h h' : Header,
      mkHeader dflt (some c1) c1t (some c2) c2t (some c3) c3t (some c4) c4t
        conv svc st act rl = Except.ok h ∧
      mkHeader dflt (some c1) c1t (some c2) c2t (some c3) c3t (some c4) c4t
        conv svc st' act rl = Except.ok h' ∧
      h.root = h'.root ∧
      serviceTypeAttr h.root =
        some "urn:oasis:names:tc:ebcore:ebrs:ebms:binding:1.0" := by
  exact ⟨_, _, rfl, rfl, rfl, rfl⟩

/-- C7 counterexample: construction with all four party ids equal to the
empty string succeeds — the empty string is not rejected. -/
theorem empty_party_id_accepted_cex :
    isOkB (mkHeader "d" (some "") "t1" (some "") "t2" (some "") "t3"
      (some "") "t4" none defaultService defaultServiceType defaultAction
      defaultRole) = true := rfl

/-- C7 amended: only null party ids make construction fail; empty-string
identifiers are accepted silently (the non-empty half of the invariant is
not enforced at construction time). -/
theorem empty_party_id_accepted
    (dflt t1 t2 t3 t4 : String) (conv : Option String)
    (svc st act rl : String) :
    ∃ h : Header,
      mkHeader dflt (some "") t1 (some "") t2 (some "") t3 (some "") t4
        conv svc st act rl = Except.ok h ∧
      h.c1_party_id = "" ∧ h.c2_party_id = "" ∧ h.c3_party_id = "" ∧
      h.c4_party_id = "" :=
  ⟨_, rfl, rfl, rfl, rfl, rfl⟩

/-- C2: for payload lists whose maps all carry `href` and `mimetype`,
`payload_append` appends, in input order, one spec-shaped `PartInfo` per
payload under `PayloadInfo` (MimeType `Property` always, CompressionType
`Property` exactly when present and truthy), raises nothing, and — since the
statement holds for an arbitrary starting header — repeated calls accumulate
`PartInfo` children in append order with no de-duplication. -/
theorem payload_append_appends_spec (h : Header) (ps : List Payload)
    (hv : ∀ p ∈ ps, p.href ≠ none ∧ p.mimetype ≠ none) :
    h.payload_append ps =
      (h.withRoot (modifyPayloadInfo h.root (fun pli =>
        pli.withChildren (pli.children ++ ps.map specPartInfo))), none) := by
  simp [Header.payload_append, payloadLoop_all_valid ps [] hv]

/-- C2 witness: the spec's own two-payload example appended to a concrete
header. -/
theorem payload_append_appends_spec_witness :
    sampleHeader.payload_append [samplePayload1, samplePayload2] =
      (sampleHeader.withRoot (modifyPayloadInfo sampleHeader.root (fun pli =>
        pli.withChildren (pli.children ++
          [samplePayload1, samplePayload2].map specPartInfo))), none) :=
  payload_append_appends_spec sampleHeader [samplePayload1, samplePayload2]
    (by decide)

/-- C4 counterexample: appending one payload that lacks `mimetype` does raise
the missing-field error, but `PayloadInfo`'s child count GROWS by one — the
`PartInfo` (with its empty `PartProperties`) was attached before the
`payload['mimetype']` lookup failed, so the claimed "children count
unchanged" is false. -/
theorem payload_append_missing_mimetype_cex :
    (sampleHeader.payload_append [badMimePayload]).2 =
      some (MissingFieldError.mk "mimetype") ∧
    (payloadChildren (sampleHeader.payload_append [badMimePayload]).1.root).length =
      (payloadChildren sampleHeader.root).length + 1 :=
  ⟨rfl, rfl⟩

/-- C4 amended: a payload map without `mimetype` makes the call fail with the
missing-field error, but the call is not mutation-free: the `PartInfo`
elements of the earlier payloads of the same call and a partial `PartInfo`
(holding an empty `PartProperties`) for the failing payload are left attached
under `PayloadInfo`. -/
theorem payload_append_missing_mimetype_grows
    (h : Header) (good : List Payload) (bad : Payload) (rest : List Payload)
    (hv : ∀ p ∈ good, p.href ≠ none ∧ p.mimetype ≠ none)
    (hbh : bad.href ≠ none) (hbm : bad.mimetype = none) :
    h.payload_append (good ++ bad :: rest) =
      (h.withRoot (modifyPayloadInfo h.root (fun pli => pli.withChildren
        (pli.children ++ (good.map specPartInfo ++ [partialPartInfo bad])))),
       some (MissingFieldError.mk "mimetype")) := by
  simp only [Header.payload_append,
    payloadLoop_valid_prefix good (bad :: rest) [] hv, List.nil_append]
  simp [payloadLoop, appendOnePayload_missing_mimetype bad hbh hbm]

/-- C4 amended witness: one valid payload followed by a mimetype-less one. -/
theorem payload_append_missing_mimetype_grows_witness :
    sampleHeader.payload_append ([samplePayload1] ++ badMimePayload :: []) =
      (sampleHeader.withRoot (modifyPayloadInfo sampleHeader.root
        (fun pli => pli.withChildren (pli.children ++
          ([samplePayload1].map specPartInfo ++ [partialPartInfo badMimePayload])))),
       some (MissingFieldError.mk "mimetype")) :=
  payload_append_missing_mimetype_grows sampleHeader [samplePayload1]
    badMimePayload [] (by decide) (by decide) (by decide)

/-- C10: when the k-th payload lacks `href`, the lookup fails before any
element for it is created, the loop stops, and exactly the spec-shaped
`PartInfo` elements of the first k-1 payloads stay attached — so when k > 1 a
failed call leaves `PayloadInfo` with more children than before the call. -/
theorem payload_append_missing_href_keeps_previous
    (h : Header) (good : List Payload) (bad : Payload) (rest : List Payload)
    (hv : ∀ p ∈ good, p.href ≠ none ∧ p.mimetype ≠ none)
    (hb : bad.href = none) :
    h.payload_append (good ++ bad :: rest) =
      (h.withRoot (modifyPayloadInfo h.root (fun pli => pli.withChildren
        (pli.children ++ good.map specPartInfo))),
       some (MissingFieldError.mk "href")) ∧
    (payloadInfoOf h.root ≠ none →
      payloadChildren (h.payload_append (good ++ bad :: rest)).1.root =
        payloadChildren h.root ++ good.map specPartInfo) := by
  have hmain : h.payload_append (good ++ bad :: rest) =
      (h.withRoot (modifyPayloadInfo h.root (fun pli => pli.withChildren
        (pli.children ++ good.map specPartInfo))),
       some (MissingFieldError.mk "href")) := by
    simp only [Header.payload_append,
      payloadLoop_valid_prefix good (bad :: rest) [] hv, List.nil_append]
    simp [payloadLoop, appendOnePayload_missing_href bad hb]
  refine ⟨hmain, fun hw => ?_⟩
  rw [hmain]
  simp only [Header.withRoot, payloadChildren, payloadInfoOf_modify]
  cases hpi : payloadInfoOf h.root with
  | none => exact absurd hpi hw
  | some pli => simp [children_withChildren]

/-- C10 witness: a valid payload followed by an href-less one leaves one more
`PartInfo` under `PayloadInfo` and raises the href error. -/
theorem payload_append_missing_href_keeps_previous_witness :
    sampleHeader.payload_append ([samplePayload1] ++ badHrefPayload :: []) =
      (sampleHeader.withRoot (modifyPayloadInfo sampleHeader.root
        (fun pli => pli.withChildren (pli.children ++
          [samplePayload1].map specPartInfo))),
       some (MissingFieldError.mk "href")) ∧
    (payloadInfoOf sampleHeader.root ≠ none →
      payloadChildren (sampleHeader.payload_append
          ([samplePayload1] ++ badHrefPayload :: [])).1.root =
        payloadChildren sampleHeader.root ++ [samplePayload1].map specPartInfo) :=
  payload_append_missing_href_keeps_previous sampleHeader [samplePayload1]
    badHrefPayload [] (by decide) (by decide)

/-- C8: serialization is a deterministic function of the tree's current
state: any two header states with the same tree serialize to identical
output, so two consecutive calls with no intervening mutation agree. -/
theorem xml_deterministic (h1 h2 : Header) (hr : h1.root = h2.root) :
    h1.xml = h2.xml := by
  simp [Header.xml, Header.element, hr]

/-- C8 witness: two calls on the same concrete header agree. -/
theorem xml_deterministic_witness :
    Header.xml sampleHeader = Header.xml sampleHeader :=
  xml_deterministic sampleHeader sampleHeader rfl

lemma root_withRoot (h : Header) (r : Elem) : (h.withRoot r).root = r := rfl

lemma payload_append_fst (h : Header) (ps : List Payload) :
    (h.payload_append ps).1 =
      h.withRoot (modifyPayloadInfo h.root (fun pli =>
        pli.withChildren (pli.children ++ (payloadLoop [] ps).1))) := rfl

/-- C9: `payload_append` only ever extends the child list of `PayloadInfo`:
the root element's tag, attributes and text, the `PartyInfo`,
`CollaborationInfo` and `MessageProperties` subtrees, every pre-existing
`PayloadInfo` child, and all stored party / service / action /
conversation-id / role data survive any call (successful or not)
unchanged, and `PayloadInfo`'s children only gain a suffix. -/
theorem payload_append_frame (h : Header) (ps : List Payload) :
    (h.payload_append ps).1.root.tag = h.root.tag ∧
    (h.payload_append ps).1.root.attrib = h.root.attrib ∧
    (h.payload_append ps).1.root.text = h.root.text ∧
    partyInfoOf (h.payload_append ps).1.root = partyInfoOf h.root ∧
    collaborationInfoOf (h.payload_append ps).1.root = collaborationInfoOf h.root ∧
    messagePropertiesOf (h.payload_append ps).1.root = messagePropertiesOf h.root ∧
    (∃ suffix, payloadChildren (h.payload_append ps).1.root =
      payloadChildren h.root ++ suffix) ∧
    (h.payload_append ps).1.c1_party_id = h.c1_party_id ∧
    (h.payload_append ps).1.c1_party_id_type = h.c1_party_id_type ∧
    (h.payload_append ps).1.c2_party_id = h.c2_party_id ∧
    (h.payload_append ps).1.c2_party_id_type = h.c2_party_id_type ∧
    (h.payload_append ps).1.c3_party_id = h.c3_party_id ∧
    (h.payload_append ps).1.c3_party_id_type = h.c3_party_id_type ∧
    (h.payload_append ps).1.c4_party_id = h.c4_party_id ∧
    (h.payload_append ps).1.c4_party_id_type = h.c4_party_id_type ∧
    (h.payload_append ps).1.service = h.service ∧
    (h.payload_append ps).1.service_type = h.service_type ∧
    (h.payload_append ps).1.action = h.action ∧
    (h.payload_append ps).1.conversationid = h.conversationid ∧
    (h.payload_append ps).1.role = h.role := by
  rw [payload_append_fst]
  refine ⟨?_, ?_, ?_, ?_, ?_, ?_, ?_, rfl, rfl, rfl, rfl, rfl, rfl, rfl,
    rfl, rfl, rfl, rfl, rfl, rfl⟩
  · rw [root_withRoot]
    simp [modifyPayloadInfo, tag_withChildren]
  · rw [root_withRoot]
    simp [modifyPayloadInfo, attrib_withChildren]
  · rw [root_withRoot]
    simp [modifyPayloadInfo, text_withChildren]
  · rw [root_withRoot, partyInfoOf_modify]
  · rw [root_withRoot, collaborationInfoOf_modify]
  · rw [root_withRoot, messagePropertiesOf_modify]
  · rw [root_withRoot]
    simp only [payloadChildren, payloadInfoOf_modify]
    cases payloadInfoOf h.root with
    | none => exact ⟨[], rfl⟩
    | some pli =>
      exact ⟨(payloadLoop [] ps).1, by simp [children_withChildren]⟩
